import Mathlib

/-!
Verification of the rent payment reconciliation engine of the
Mikee100/rent-backend repository, shallowly embedded in Lean 4.

The embedding follows src/routes/payments.js (ledger posting, paybill,
mpesa-confirmation, generic receive webhook, monthly rent generator,
overdue sweeper), the Equity bank webhook handler in src/routes/houses.js,
and the M-Pesa STK push callback router.

Modelling conventions:
- JavaScript numbers used for money are modelled as rationals.
- Mongo documents are records; a collection is a list; `findOne` is the
  first match of the list; `findOne().sort(\x7bcreatedAt: -1\x7d)` is the match
  with the greatest `createdAt`.
- Optional / possibly-absent JSON fields are `Option` values; JavaScript
  falsiness of strings and numbers is modelled explicitly (`none` or empty
  string, `none` or zero).
- Dates are abstract integer day indices; only their order matters to the
  code under study.
- The `partial` payment status of the source is named `underpaid` here.
- The Payment mongoose schema file itself is not in the repository
  snapshot; where its defaults matter (`lateFee` defaulting to `0`, which
  the sweeper's `payment.lateFee === 0` test and spec Scenario E both
  presuppose) the model follows the spec.
-/

namespace Rent

/-- Payment status enumeration of the Payment schema.
`underpaid` renders the source's `partial` status. -/
inductive PayStatus where
  | pending
  | underpaid
  | paid
  | overdue
  deriving DecidableEq, Repr

/-- A persisted Payment document, restricted to the fields the
reconciliation engine reads or writes.  `pid` models Mongo's `_id`,
`createdAt` the creation timestamp used by `sort(\x7bcreatedAt: -1\x7d)`.
Fields a channel does not supply are `none`. -/
structure PaymentRec where
  pid : Nat
  tenant : Nat
  house : Nat
  month : Option Nat
  year : Option Int
  amount : ℚ
  expectedAmount : Option ℚ
  paidAmount : Option ℚ
  deficit : Option ℚ
  carriedForward : Option ℚ
  lateFee : ℚ
  status : PayStatus
  transactionId : Option String
  referenceNumber : Option String
  receiptNumber : Option String
  dueDate : Option Int
  createdAt : Nat
  paymentSource : String
  deriving DecidableEq, Repr

/-- The payment-record store (the Payment collection). -/
abbrev Store := List PaymentRec

/-- JavaScript falsiness of an optional string (`!s`): absent or empty. -/
def falsyS : Option String → Bool
  | none => true
  | some s => s = ""

/-- JavaScript falsiness of an optional numeric amount (`!a`): absent or zero. -/
def falsyQ : Option ℚ → Bool
  | none => true
  | some q => q = 0

/-- Preceding billing period: `prevMonth = m - 1`, and `prevMonth === 0`
rolls to month 12 of the prior year (payments.js lines 194-196 and
355-357, houses.js lines 445-447). -/
def prevPeriod (m : Nat) (y : Int) : Nat × Int :=
  if m - 1 = 0 then (12, y - 1) else (m - 1, y)

/-- The Mongo filter `\x7btenant, house, month, year\x7d` on a payment document. -/
def matchesPeriod (t h m : Nat) (y : Int) (p : PaymentRec) : Bool :=
  decide (p.tenant = t ∧ p.house = h ∧ p.month = some m ∧ p.year = some y)

/-- Of two documents, the one created later (ties keep the first). -/
def laterOf (a b : PaymentRec) : PaymentRec :=
  if a.createdAt < b.createdAt then b else a

/-- `Payment.findOne(\x7btenant, house, month, year\x7d).sort(\x7bcreatedAt: -1\x7d)`:
the matching document with the greatest creation timestamp. -/
def latestMatch (st : Store) (t h m : Nat) (y : Int) : Option PaymentRec :=
  (st.filter (matchesPeriod t h m y)).foldl
    (fun acc p =>
      match acc with
      | none => some p
      | some q => some (laterOf q p)) none

/-- Carried-forward deficit from the preceding period: look up the latest
record of the previous (month, year) for this (tenant, house); if found
and its `deficit > 0`, carry that deficit, else 0 (payments.js lines
191-208 and 353-368, houses.js lines 443-458). -/
def carryFor (st : Store) (t h m : Nat) (y : Int) : ℚ :=
  match latestMatch st t h (prevPeriod m y).1 (prevPeriod m y).2 with
  | some p =>
    match p.deficit with
    | some d => if 0 < d then d else 0
    | none => 0
  | none => 0

/-- Receipt identifier `RCP-<year>-<zero-padded count+1>` where the count
is `Payment.countDocuments()` at creation time. -/
def mkReceipt (y : Int) (count : Nat) : String :=
  let s := toString (count + 1)
  "RCP-" ++ toString y ++ "-" ++ (String.mk (List.replicate (6 - s.length) '0') ++ s)

/-- Ledger status decision of payments.js lines 214-220: `paid` when the
paid amount reaches the expected amount, else `partial` when positive,
else `pending`. -/
def ledgerStatus (expected paid : ℚ) : PayStatus :=
  if expected ≤ paid then .paid
  else if 0 < paid then .underpaid
  else .pending

/-- Request body of `router.post('/')` (manual/API payment entry),
restricted to the fields the ledger calculation reads.  `month`, `year`
are optional exactly as in the source guard
`if (req.body.tenant && req.body.month && req.body.year)`. -/
structure PostReq where
  tenant : Nat
  house : Nat
  month : Option Nat
  year : Option Int
  amount : Option ℚ
  deriving Repr

/-- The carried-forward amount computed by `router.post('/')`: only
computed when month and year are supplied, else 0. -/
def postCarried (st : Store) (req : PostReq) : ℚ :=
  match req.month, req.year with
  | some m, some y => carryFor st req.tenant req.house m y
  | _, _ => 0

/-- `router.post('/')` of payments.js (lines 158-248), given the resolved
house's rent: computes `expected = rent + carriedForward`,
`paid = req.body.amount || 0`, `deficit = max(0, expected - paid)`, the
ledger status, and appends the new record.  `nowYear` is the current year
used for the receipt number. -/
def postPayment (st : Store) (rent : ℚ) (req : PostReq) (nowYear : Int) :
    PaymentRec × Store :=
  let carried := postCarried st req
  let expected := rent + carried
  let paid := req.amount.getD 0
  let d := max 0 (expected - paid)
  let p : PaymentRec :=
    { pid := st.length
      tenant := req.tenant
      house := req.house
      month := req.month
      year := req.year
      amount := paid
      expectedAmount := some expected
      paidAmount := some paid
      deficit := some d
      carriedForward := some carried
      lateFee := 0
      status := ledgerStatus expected paid
      transactionId := none
      referenceNumber := none
      receiptNumber := some (mkReceipt nowYear st.length)
      dueDate := none
      createdAt := st.length
      paymentSource := "manual" }
  (p, st ++ [p])

/-- Abstract day index of the first day of month `m` of year `y`
(`new Date(year, month - 1, 1)`).  Only its order against `today`
matters to the code under study. -/
def firstOfMonth (m : Nat) (y : Int) : Int :=
  372 * y + 31 * (m - 1)

/-- `Payment.findOne(\x7btenant, house, month, year\x7d)` used as a pure
existence check by the monthly rent generator. -/
def periodExists (st : Store) (t h m : Nat) (y : Int) : Bool :=
  st.any (matchesPeriod t h m y)

/-- An active tenant with an assigned (populated) house, as returned by
`Tenant.find(\x7bstatus: 'active', house: \x7b$ne: null\x7d\x7d).populate('house')`. -/
structure GenTenant where
  tid : Nat
  houseId : Nat
  rent : ℚ
  deriving DecidableEq, Repr

/-- Accumulated state of a `generate-monthly-rent` run: the store plus the
counts returned in the response (`generated`, `errors: errors.length`)
and the skip messages (`details`). -/
structure GenState where
  store : Store
  generated : Nat
  skipped : Nat
  reasons : List String
  deriving DecidableEq, Repr

/-- One iteration of the generator loop (payments.js lines 334-406) for a
single tenant: skip with a message when a record for the (tenant, house,
month, year) already exists; otherwise create a record with
`paidAmount = 0`, `deficit = expectedAmount`, the carried-forward
deficit, and status `pending`, or `overdue` with
`lateFee = expectedAmount * lateFeePercentage / 100` when `today` is past
the due date plus the grace period. -/
def genNewRec (st : Store) (m : Nat) (y : Int) (grace : Int) (pct : ℚ)
    (today : Int) (t : GenTenant) : PaymentRec :=
  let carried := carryFor st t.tid t.houseId m y
  let expected := t.rent + carried
  let due := firstOfMonth m y
  let isLate := due + grace < today
  { pid := st.length
    tenant := t.tid
    house := t.houseId
    month := some m
    year := some y
    amount := expected
    expectedAmount := some expected
    paidAmount := some 0
    deficit := some expected
    carriedForward := some carried
    lateFee := if isLate then expected * pct / 100 else 0
    status := if isLate then .overdue else .pending
    transactionId := none
    referenceNumber := none
    receiptNumber := none
    dueDate := some due
    createdAt := st.length
    paymentSource := "" }

def genStep (m : Nat) (y : Int) (grace : Int) (pct : ℚ) (today : Int)
    (s : GenState) (t : GenTenant) : GenState :=
  if periodExists s.store t.tid t.houseId m y then
    { s with
      skipped := s.skipped + 1
      reasons := s.reasons ++ ["Payment already exists for tenant " ++ toString t.tid] }
  else
    { store := s.store ++ [genNewRec s.store m y grace pct today t]
      generated := s.generated + 1
      skipped := s.skipped
      reasons := s.reasons }

/-- `router.post('/generate-monthly-rent')` (payments.js lines 318-417):
fold the per-tenant step over all active tenants with houses. -/
def generateMonthly (tenants : List GenTenant) (st : Store) (m : Nat)
    (y : Int) (grace : Int) (pct : ℚ) (today : Int) : GenState :=
  tenants.foldl (genStep m y grace pct today)
    { store := st, generated := 0, skipped := 0, reasons := [] }

/-- C1: when a payment is posted with a proposed paid amount against the
expected amount (rent plus carried-forward deficit), the created record
gets status `paid` and deficit 0 when the amount reaches the expected
amount; status `partial` and deficit = expected - proposed when strictly
between 0 and the expected amount; status `pending` when the amount is 0
(and does not already satisfy the expected amount, the `paid` case being
tested first as in the source's if/else chain); the stored deficit is
always max(0, expected - proposed); and status `overdue` is never
assigned by this calculation. -/
theorem C1_ledger_calculation (st : Store) (rent : ℚ) (req : PostReq)
    (nowYear : Int) (expected paid : ℚ)
    (hexp : expected = rent + postCarried st req)
    (hpaid : paid = req.amount.getD 0) :
    (expected ≤ paid →
      (postPayment st rent req nowYear).1.status = .paid ∧
      (postPayment st rent req nowYear).1.deficit = some 0) ∧
    (0 < paid → paid < expected →
      (postPayment st rent req nowYear).1.status = .underpaid ∧
      (postPayment st rent req nowYear).1.deficit = some (expected - paid)) ∧
    (paid = 0 → paid < expected →
      (postPayment st rent req nowYear).1.status = .pending) ∧
    (postPayment st rent req nowYear).1.deficit = some (max 0 (expected - paid)) ∧
    (postPayment st rent req nowYear).1.status ≠ .overdue := by
  subst hexp hpaid
  refine ⟨fun hle => ?_, fun hpos hlt => ?_, fun hz hlt => ?_, ?_, ?_⟩
  · constructor
    · simp [postPayment, ledgerStatus, hle]
    · simp only [postPayment]
      have : max 0 (rent + postCarried st req - req.amount.getD 0) = 0 := by
        rw [max_eq_left]
        linarith
      simp [this]
  · constructor
    · simp [postPayment, ledgerStatus, not_le.mpr hlt, hpos]
    · simp only [postPayment]
      have : max 0 (rent + postCarried st req - req.amount.getD 0) =
          rent + postCarried st req - req.amount.getD 0 := by
        rw [max_eq_right]
        linarith
      simp [this]
  · have hnl : ¬ (rent + postCarried st req ≤ req.amount.getD 0) := not_le.mpr hlt
    simp [postPayment, ledgerStatus, hnl, hz]
    linarith
  · simp [postPayment]
  · simp only [postPayment, ledgerStatus]
    split_ifs <;> simp

/-- Witness for C1 at rent 1200, prior store empty, proposed amount 800:
expected 1200, so the record is `partial` with deficit 400. -/
theorem C1_witness :
    ((1200 : ℚ) ≤ 800 →
      (postPayment [] 1200 ⟨1, 1, some 2, some 2024, some 800⟩ 2024).1.status = .paid ∧
      (postPayment [] 1200 ⟨1, 1, some 2, some 2024, some 800⟩ 2024).1.deficit = some 0) ∧
    ((0 : ℚ) < 800 → (800 : ℚ) < 1200 →
      (postPayment [] 1200 ⟨1, 1, some 2, some 2024, some 800⟩ 2024).1.status = .underpaid ∧
      (postPayment [] 1200 ⟨1, 1, some 2, some 2024, some 800⟩ 2024).1.deficit =
        some (1200 - 800)) ∧
    ((800 : ℚ) = 0 → (800 : ℚ) < 1200 →
      (postPayment [] 1200 ⟨1, 1, some 2, some 2024, some 800⟩ 2024).1.status = .pending) ∧
    (postPayment [] 1200 ⟨1, 1, some 2, some 2024, some 800⟩ 2024).1.deficit =
      some (max 0 (1200 - 800)) ∧
    (postPayment [] 1200 ⟨1, 1, some 2, some 2024, some 800⟩ 2024).1.status ≠ .overdue :=
  C1_ledger_calculation [] 1200 ⟨1, 1, some 2, some 2024, some 800⟩ 2024 1200 800
    (by simp [postCarried, carryFor, prevPeriod, latestMatch]) (by simp)

/-- Folding the later-of combinator over a list whose elements all equal
`p0`, starting from `some p0`, stays at `some p0`. -/
theorem foldl_laterOf_const (p0 : PaymentRec) :
    ∀ l : List PaymentRec, (∀ p ∈ l, p = p0) →
      l.foldl (fun acc p =>
        match acc with
        | none => some p
        | some q => some (laterOf q p)) (some p0) = some p0 := by
  intro l
  induction l with
  | nil => intro _; rfl
  | cons a l ih =>
    intro hall
    have ha : a = p0 := hall a (List.mem_cons_self a l)
    have hrest : ∀ p ∈ l, p = p0 := fun p hp => hall p (List.mem_cons_of_mem a hp)
    subst ha
    simpa [laterOf] using ih hrest

/-- When exactly one document (up to equality) matches the period filter,
the sorted `findOne` returns it. -/
theorem latestMatch_of_unique (st : Store) (t h m : Nat) (y : Int)
    (p0 : PaymentRec) (hmem : p0 ∈ st)
    (hmatch : matchesPeriod t h m y p0 = true)
    (huniq : ∀ p ∈ st, matchesPeriod t h m y p = true → p = p0) :
    latestMatch st t h m y = some p0 := by
  unfold latestMatch
  have hmemf : p0 ∈ st.filter (matchesPeriod t h m y) :=
    List.mem_filter.mpr ⟨hmem, hmatch⟩
  have hallf : ∀ p ∈ st.filter (matchesPeriod t h m y), p = p0 := by
    intro p hp
    rcases List.mem_filter.mp hp with ⟨hpmem, hpmatch⟩
    exact huniq p hpmem hpmatch
  cases hf : st.filter (matchesPeriod t h m y) with
  | nil => rw [hf] at hmemf; exact absurd hmemf (List.not_mem_nil p0)
  | cons a l =>
    rw [hf] at hallf
    have ha : a = p0 := hallf a (List.mem_cons_self a l)
    have hrest : ∀ p ∈ l, p = p0 := fun p hp => hallf p (List.mem_cons_of_mem a hp)
    subst ha
    simpa using foldl_laterOf_const a l hrest

/-- Under the same uniqueness hypothesis, the carried-forward lookup
returns the previous record's positive deficit. -/
theorem carryFor_of_unique (st : Store) (t h m : Nat) (y : Int)
    (p0 : PaymentRec) (D : ℚ)
    (hmem : p0 ∈ st)
    (hmatch : matchesPeriod t h (prevPeriod m y).1 (prevPeriod m y).2 p0 = true)
    (huniq : ∀ p ∈ st,
      matchesPeriod t h (prevPeriod m y).1 (prevPeriod m y).2 p = true → p = p0)
    (hdef : p0.deficit = some D) (hpos : 0 < D) :
    carryFor st t h m y = D := by
  unfold carryFor
  rw [latestMatch_of_unique st t h (prevPeriod m y).1 (prevPeriod m y).2 p0
    hmem hmatch huniq]
  simp [hdef, hpos]

/-- C2: if the (unique, up to equality) record of the preceding period P
for a given (occupant, unit) has deficit D > 0, then the record created
for period P+1 — whether by posting a payment or by the monthly rent
generator — has expected amount = unit rent + D; and the preceding-period
computation rolls month 0 over to month 12 of the prior year. -/
theorem C2_carry_forward (st : Store) (rent : ℚ) (t h m : Nat) (y : Int)
    (p0 : PaymentRec) (D : ℚ) (nowYear : Int) (amt : Option ℚ)
    (grace : Int) (pct : ℚ) (today : Int) (g k : Nat) (rs : List String)
    (hmem : p0 ∈ st)
    (hmatch : matchesPeriod t h (prevPeriod m y).1 (prevPeriod m y).2 p0 = true)
    (huniq : ∀ p ∈ st,
      matchesPeriod t h (prevPeriod m y).1 (prevPeriod m y).2 p = true → p = p0)
    (hdef : p0.deficit = some D) (hpos : 0 < D)
    (hnew : periodExists st t h m y = false) :
    (postPayment st rent ⟨t, h, some m, some y, amt⟩ nowYear).1.expectedAmount =
      some (rent + D) ∧
    (genStep m y grace pct today ⟨st, g, k, rs⟩ ⟨t, h, rent⟩).store =
      st ++ [((genStep m y grace pct today ⟨st, g, k, rs⟩ ⟨t, h, rent⟩).store.getLast
        (by simp [genStep, hnew]))] ∧
    ((genStep m y grace pct today ⟨st, g, k, rs⟩ ⟨t, h, rent⟩).store.getLast
        (by simp [genStep, hnew])).expectedAmount = some (rent + D) ∧
    (∀ y' : Int, prevPeriod 1 y' = (12, y' - 1)) := by
  have hc : carryFor st t h m y = D :=
    carryFor_of_unique st t h m y p0 D hmem hmatch huniq hdef hpos
  refine ⟨?_, ?_, ?_, ?_⟩
  · simp [postPayment, postCarried, hc]
  · simp [genStep, hnew]
  · simp [genStep, genNewRec, hnew, hc]
  · intro y'
    simp [prevPeriod]

/-- Sample prior-period record: February 2024, tenant 1, house 1, paid
800 of expected 1200 leaving deficit 400. -/
def febRec : PaymentRec where
  pid := 0
  tenant := 1
  house := 1
  month := some 2
  year := some 2024
  amount := 800
  expectedAmount := some 1200
  paidAmount := some 800
  deficit := some 400
  carriedForward := some 0
  lateFee := 0
  status := .underpaid
  transactionId := none
  referenceNumber := none
  receiptNumber := some "RCP-2024-000001"
  dueDate := none
  createdAt := 0
  paymentSource := "manual"

/-- Witness for C2: store holding only `febRec` (deficit 400); posting for
March 2024 and generating March 2024 both yield expected amount
1200 + 400. -/
theorem C2_witness :
    (postPayment [febRec] 1200 ⟨1, 1, some 3, some 2024, some 0⟩ 2024).1.expectedAmount =
      some (1200 + 400) ∧
    (genStep 3 2024 5 5 0 ⟨[febRec], 0, 0, []⟩ ⟨1, 1, 1200⟩).store =
      [febRec] ++
        [((genStep 3 2024 5 5 0 ⟨[febRec], 0, 0, []⟩ ⟨1, 1, 1200⟩).store.getLast
          (by decide))] ∧
    ((genStep 3 2024 5 5 0 ⟨[febRec], 0, 0, []⟩ ⟨1, 1, 1200⟩).store.getLast
        (by decide)).expectedAmount = some (1200 + 400) ∧
    (∀ y' : Int, prevPeriod 1 y' = (12, y' - 1)) :=
  C2_carry_forward [febRec] 1200 1 1 3 2024 febRec 400 2024 (some 0) 5 5 0 0 0 []
    (by decide) (by decide) (by decide) (by decide) (by norm_num) (by decide)

/-- The sweep's record filter `status: \x7b$in: ['pending', 'partial']\x7d`. -/
def sweepSelect (p : PaymentRec) : Bool :=
  decide (p.status = .pending ∨ p.status = .underpaid)

/-- `today > dueDate + gracePeriodDays`: true only when the record has a
due date lying, grace period added, strictly before `today` (a missing
due date gives an invalid date whose comparisons are all false). -/
def pastGrace (today grace : Int) (p : PaymentRec) : Bool :=
  match p.dueDate with
  | some due => decide (due + grace < today)
  | none => false

/-- One record of the overdue sweep (payments.js lines 953-968): for a
`pending`/`partial` record past its due date plus grace period (and not
already `overdue`), set the late fee — only when it is not already set
(`lateFee === 0`) and the record's house resolves — to
`house.rentAmount * lateFeePercentage / 100`, and set status `overdue`;
all other records are left unchanged. -/
def sweepOne (today grace : Int) (pct : ℚ) (rentOf : Nat → Option ℚ)
    (p : PaymentRec) : PaymentRec :=
  if sweepSelect p && pastGrace today grace p && !(decide (p.status = .overdue)) then
    let fee :=
      if p.lateFee = 0 then
        match rentOf p.house with
        | some r => r * pct / 100
        | none => p.lateFee
      else p.lateFee
    { p with lateFee := fee, status := .overdue }
  else p

/-- `router.post('/check-overdue')` (payments.js lines 941-978) as a store
transformation: every record passes through `sweepOne`. -/
def sweep (today grace : Int) (pct : ℚ) (rentOf : Nat → Option ℚ)
    (st : Store) : Store :=
  st.map (sweepOne today grace pct rentOf)

/-- Sample overdue-candidate record: March 2024, pending, expected amount
1600 (rent 1200 plus carried-forward 400), due on day 0, no late fee yet. -/
def marRec : PaymentRec where
  pid := 1
  tenant := 1
  house := 1
  month := some 3
  year := some 2024
  amount := 0
  expectedAmount := some 1600
  paidAmount := some 0
  deficit := some 1600
  carriedForward := some 400
  lateFee := 0
  status := .pending
  transactionId := none
  referenceNumber := none
  receiptNumber := none
  dueDate := some 0
  createdAt := 1
  paymentSource := ""

/-- Rent lookup for the sample: house 1 rents at 1200. -/
def rentOf1 : Nat → Option ℚ :=
  fun h => if h = 1 then some 1200 else none

/-- C5 counterexample: a pending record past its grace period with
expected amount 1600 (rent 1200 + carried-forward 400) and no late fee
set is swept to `overdue`, but its late fee becomes
1200 * 5 / 100 = 60 — computed from the unit's rent amount — and not
1600 * 5 / 100 = 80 as the claim's `expectedAmount * lateFeePercentage /
100` formula states. -/
theorem C5_counterexample :
    marRec.status = .pending ∧
    marRec.lateFee = 0 ∧
    marRec.expectedAmount = some 1600 ∧
    pastGrace 100 5 marRec = true ∧
    (sweepOne 100 5 5 rentOf1 marRec).status = .overdue ∧
    (sweepOne 100 5 5 rentOf1 marRec).lateFee = 60 ∧
    ((60 : ℚ) ≠ 1600 * 5 / 100) := by
  refine ⟨rfl, rfl, rfl, rfl, ?_, ?_, by norm_num⟩
  · decide
  · norm_num [sweepOne, sweepSelect, pastGrace, marRec, rentOf1]
    simp

/-- C5 (amended): for every `pending`/`partial` record whose due date plus
the caller-supplied grace period lies before now, the sweep sets status
`overdue` and, only when the late fee is not already set and the record's
house resolves, sets lateFee = house rentAmount * lateFeePercentage /
100 (the unit's rent, not the record's expected amount); records not past
the grace period are unchanged. -/
theorem C5_sweep_postcondition (today grace : Int) (pct : ℚ)
    (rentOf : Nat → Option ℚ) (p q : PaymentRec) (r : ℚ)
    (hsel : p.status = .pending ∨ p.status = .underpaid)
    (hpast : pastGrace today grace p = true)
    (hrent : rentOf p.house = some r) :
    (sweepOne today grace pct rentOf p).status = .overdue ∧
    (sweepOne today grace pct rentOf p).lateFee =
      (if p.lateFee = 0 then r * pct / 100 else p.lateFee) ∧
    (pastGrace today grace q = false → sweepOne today grace pct rentOf q = q) := by
  have hsel' : sweepSelect p = true := by
    simp [sweepSelect, hsel]
  have hnov : p.status ≠ .overdue := by
    rcases hsel with h | h <;> simp [h]
  refine ⟨?_, ?_, ?_⟩
  · simp [sweepOne, hsel', hpast, hnov]
  · simp only [sweepOne, hsel', hpast, hnov, decide_eq_true_eq]
    simp [hnov, hrent]
  · intro hq
    simp [sweepOne, hq]

/-- Witness for C5 (amended) at the sample record: swept to `overdue`
with late fee 1200 * 5 / 100; a record due in the far future (due date
1000, today 100) is unchanged. -/
theorem C5_witness :
    (sweepOne 100 5 5 rentOf1 marRec).status = .overdue ∧
    (sweepOne 100 5 5 rentOf1 marRec).lateFee =
      (if marRec.lateFee = 0 then (1200 : ℚ) * 5 / 100 else marRec.lateFee) ∧
    (pastGrace 100 5 { marRec with dueDate := some 1000 } = false →
      sweepOne 100 5 5 rentOf1 { marRec with dueDate := some 1000 } =
        { marRec with dueDate := some 1000 }) :=
  C5_sweep_postcondition 100 5 5 rentOf1 marRec
    { marRec with dueDate := some 1000 } 1200
    (Or.inl rfl) (by decide) (by decide)

/-- Applying the sweep step twice to one record equals applying it once:
a swept record becomes `overdue`, which the selection filter excludes. -/
theorem sweepOne_idem (today grace : Int) (pct : ℚ)
    (rentOf : Nat → Option ℚ) (p : PaymentRec) :
    sweepOne today grace pct rentOf (sweepOne today grace pct rentOf p) =
      sweepOne today grace pct rentOf p := by
  by_cases hb :
      (sweepSelect p && pastGrace today grace p &&
        !(decide (p.status = .overdue))) = true
  · have h1 : sweepOne today grace pct rentOf p =
        { p with
          lateFee :=
            if p.lateFee = 0 then
              match rentOf p.house with
              | some r => r * pct / 100
              | none => p.lateFee
            else p.lateFee
          status := .overdue } := by
      unfold sweepOne
      rw [if_pos hb]
    rw [h1]
    simp [sweepOne, sweepSelect]
  · have h1 : sweepOne today grace pct rentOf p = p := by
      unfold sweepOne
      rw [if_neg hb]
    rw [h1, h1]

/-- C9: the overdue sweep is idempotent on the whole store — a second run
with the same parameters changes no record and charges no additional
fee. -/
theorem C9_sweep_idempotent (today grace : Int) (pct : ℚ)
    (rentOf : Nat → Option ℚ) (st : Store) :
    sweep today grace pct rentOf (sweep today grace pct rentOf st) =
      sweep today grace pct rentOf st := by
  unfold sweep
  rw [List.map_map]
  apply List.map_congr_left
  intro p _
  exact sweepOne_idem today grace pct rentOf p

/-- Whitespace test used by the account-reference trim. -/
def isWS (c : Char) : Bool :=
  c = ' ' || c = '\t' || c = '\n' || c = '\r'

/-- `String.prototype.trim()` on an account reference, written over the
character list so it is fully executable. -/
def trimChars (s : String) : String :=
  String.mk (((s.data.dropWhile isWS).reverse.dropWhile isWS).reverse)

/-- A house as resolved by `House.findOne(\x7bhouseNumber\x7d)` with its
populated tenant reference. -/
structure HouseRec where
  hid : Nat
  rent : ℚ
  tenantId : Option Nat
  deriving DecidableEq, Repr

/-- A tenant as resolved by
`Tenant.findOne(\x7bbankAccountNumber, status: 'active'\x7d)` with its populated
house reference. -/
structure TenantRec where
  tid : Nat
  houseId : Option Nat
  deriving DecidableEq, Repr

/-- The claim-relevant content of an ingestion response: the HTTP status
code, the receipt number it carries (if any), the existing payment id it
carries (if any), and — for callback-style replies — the `ResultCode`. -/
structure ChanResp where
  statusCode : Nat
  receiptNumber : Option String
  existingId : Option Nat
  resultCode : Option Int
  deriving DecidableEq, Repr

/-- `Payment.findOne(\x7btransactionId\x7d)`. -/
def findByTxn (st : Store) (tid : String) : Option PaymentRec :=
  st.find? (fun p => decide (p.transactionId = some tid))

/-- `Payment.findOne(\x7bhouse, tenant, month, year, status: 'paid'\x7d)` —
the period-level duplicate guard. -/
def findMonthlyPaid (st : Store) (t h m : Nat) (y : Int) : Option PaymentRec :=
  st.find? (fun p => decide (p.tenant = t ∧ p.house = h ∧
    p.month = some m ∧ p.year = some y ∧ p.status = .paid))

/-- Request body of `router.post('/paybill')`. -/
structure PaybillReq where
  accountNumber : Option String
  amount : Option ℚ
  transactionId : Option String
  referenceNumber : Option String
  deriving DecidableEq, Repr

/-- The payment record created by `router.post('/paybill')` (payments.js
lines 675-693): status decided by comparing the reported amount with the
house's rent alone; no expected amount, paid amount, deficit or
carried-forward value is supplied. -/
def mkPaybillRec (st : Store) (house : HouseRec) (tid : Nat)
    (req : PaybillReq) (m : Nat) (y : Int) : PaymentRec :=
  let amt := req.amount.getD 0
  { pid := st.length
    tenant := tid
    house := house.hid
    month := some m
    year := some y
    amount := amt
    expectedAmount := none
    paidAmount := none
    deficit := none
    carriedForward := none
    lateFee := 0
    status := if amt < house.rent then .underpaid else .paid
    transactionId :=
      if falsyS req.transactionId then req.referenceNumber else req.transactionId
    referenceNumber := req.referenceNumber
    receiptNumber := some (mkReceipt y st.length)
    dueDate := some (firstOfMonth m y)
    createdAt := st.length
    paymentSource := "paybill" }

/-- `router.post('/paybill')` (payments.js lines 582-723).  `paybillOk`
abstracts the optional configured-paybill-number validation; `houseL`
resolves a house number.  The current period (m, y) is taken from the
clock.  Checks in source order: required fields, house, tenant,
transaction-id duplicate (400 with the existing receipt), period-level
`paid` duplicate (400 with the existing receipt and id), then create. -/
def paybill (st : Store) (houseL : String → Option HouseRec)
    (paybillOk : Bool) (req : PaybillReq) (m : Nat) (y : Int) :
    ChanResp × Store :=
  if !paybillOk then
    (⟨400, none, none, none⟩, st)
  else if falsyS req.accountNumber || falsyQ req.amount then
    (⟨400, none, none, none⟩, st)
  else
    match houseL (trimChars (req.accountNumber.getD "")) with
    | none => (⟨404, none, none, none⟩, st)
    | some house =>
      match house.tenantId with
      | none => (⟨400, none, none, none⟩, st)
      | some tid =>
        match
          (if falsyS req.transactionId then none
           else findByTxn st (req.transactionId.getD "")) with
        | some e => (⟨400, e.receiptNumber, none, none⟩, st)
        | none =>
          match findMonthlyPaid st tid house.hid m y with
          | some e => (⟨400, e.receiptNumber, some e.pid, none⟩, st)
          | none =>
            let p := mkPaybillRec st house tid req m y
            (⟨201, p.receiptNumber, none, none⟩, st ++ [p])

/-- Request body of `router.post('/receive')` (generic webhook). -/
structure ReceiveReq where
  houseNumber : Option String
  amount : Option ℚ
  transactionId : Option String
  referenceNumber : Option String
  deriving DecidableEq, Repr

/-- The payment record created by `router.post('/receive')` (payments.js
lines 796-813): like the paybill one, but the transaction id is stored
without the reference-number fallback and the source is `webhook`. -/
def mkReceiveRec (st : Store) (house : HouseRec) (tid : Nat)
    (req : ReceiveReq) (m : Nat) (y : Int) : PaymentRec :=
  let amt := req.amount.getD 0
  { pid := st.length
    tenant := tid
    house := house.hid
    month := some m
    year := some y
    amount := amt
    expectedAmount := none
    paidAmount := none
    deficit := none
    carriedForward := none
    lateFee := 0
    status := if amt < house.rent then .underpaid else .paid
    transactionId := req.transactionId
    referenceNumber := req.referenceNumber
    receiptNumber := some (mkReceipt y st.length)
    dueDate := some (firstOfMonth m y)
    createdAt := st.length
    paymentSource := "webhook" }

/-- `router.post('/receive')` (payments.js lines 726-835).  Same shape as
the paybill channel, but the transaction-id duplicate response carries no
receipt number (line 757) and the period-level duplicate response carries
only the existing payment's id (lines 776-779). -/
def receivePayment (st : Store) (houseL : String → Option HouseRec)
    (req : ReceiveReq) (m : Nat) (y : Int) : ChanResp × Store :=
  if falsyS req.houseNumber || falsyQ req.amount then
    (⟨400, none, none, none⟩, st)
  else
    match houseL (trimChars (req.houseNumber.getD "")) with
    | none => (⟨404, none, none, none⟩, st)
    | some house =>
      match house.tenantId with
      | none => (⟨400, none, none, none⟩, st)
      | some tid =>
        match
          (if falsyS req.transactionId then none
           else findByTxn st (req.transactionId.getD "")) with
        | some _ => (⟨400, none, none, none⟩, st)
        | none =>
          match findMonthlyPaid st tid house.hid m y with
          | some e => (⟨400, none, some e.pid, none⟩, st)
          | none =>
            let p := mkReceiveRec st house tid req m y
            (⟨201, p.receiptNumber, none, none⟩, st ++ [p])

/-- The payment record created by the M-Pesa C2B confirmation handler
(payments.js lines 505-522): again status by amount versus rent alone and
no ledger fields. -/
def mkMpesaRec (st : Store) (house : HouseRec) (tid : Nat) (amt : ℚ)
    (transId : String) (m : Nat) (y : Int) : PaymentRec :=
  { pid := st.length
    tenant := tid
    house := house.hid
    month := some m
    year := some y
    amount := amt
    expectedAmount := none
    paidAmount := none
    deficit := none
    carriedForward := none
    lateFee := 0
    status := if amt < house.rent then .underpaid else .paid
    transactionId := some transId
    referenceNumber := some transId
    receiptNumber := some (mkReceipt y st.length)
    dueDate := some (firstOfMonth m y)
    createdAt := st.length
    paymentSource := "paybill" }

/-- `router.post('/mpesa-confirmation')` (payments.js lines 422-538): the
acknowledgment `\x7bResultCode: 0\x7d` is sent before (and independently of)
processing, so the returned result code is always 0; processing then
drops the notification on any missing field, unresolvable house or
tenant, transaction-id replay, or period-level `paid` duplicate, and
otherwise records the payment.  `transAmount = none` models a missing or
empty `TransAmount` (a non-empty string, even "0", is truthy and parsed
with `parseFloat`). -/
def mpesaConfirm (st : Store) (houseL : String → Option HouseRec)
    (billRef : Option String) (transAmount : Option ℚ)
    (transId : Option String) (m : Nat) (y : Int) : Int × Store :=
  let st' :=
    if falsyS billRef || transAmount.isNone || falsyS transId then st
    else
      match houseL (trimChars (billRef.getD "")) with
      | none => st
      | some house =>
        match house.tenantId with
        | none => st
        | some tid =>
          match findByTxn st (transId.getD "") with
          | some _ => st
          | none =>
            match findMonthlyPaid st tid house.hid m y with
            | some _ => st
            | none =>
              st ++ [mkMpesaRec st house tid (transAmount.getD 0)
                (transId.getD "") m y]
  (0, st')

/-- The payment record created by the Equity bank webhook processor
(houses.js lines 475-496): this channel does run the ledger calculation
(carried-forward deficit, expected amount, deficit, status against the
expected amount). -/
def mkEquityRec (st : Store) (house : HouseRec) (tid : Nat) (amt : ℚ)
    (transactionId referenceNumber : Option String) (m : Nat) (y : Int) :
    PaymentRec :=
  let carried := carryFor st tid house.hid m y
  let expected := house.rent + carried
  let d := max 0 (expected - amt)
  { pid := st.length
    tenant := tid
    house := house.hid
    month := some m
    year := some y
    amount := amt
    expectedAmount := some expected
    paidAmount := some amt
    deficit := some d
    carriedForward := some carried
    lateFee := 0
    status := if amt < expected then .underpaid else .paid
    transactionId :=
      if falsyS transactionId then referenceNumber else transactionId
    referenceNumber :=
      if falsyS referenceNumber then transactionId else referenceNumber
    receiptNumber := some (mkReceipt y st.length)
    dueDate := some (firstOfMonth m y)
    createdAt := st.length
    paymentSource := "equity_bank" }

/-- `processEquityBankPayment` (houses.js lines 345-507), run after the
webhook has already been acknowledged with success: drops the
notification on a missing account number or non-positive amount, an
unresolvable tenant or house, or a transaction-id replay; on a
period-level `paid` duplicate it proceeds — creating an additional
record — exactly when the newly reported amount differs from the
existing record's amount, and drops the notification otherwise. -/
def equityProcess (st : Store) (tenantL : String → Option TenantRec)
    (houseById : Nat → Option HouseRec) (accountNumber : Option String)
    (amt : ℚ) (transactionId referenceNumber : Option String)
    (m : Nat) (y : Int) : Store :=
  if falsyS accountNumber || decide (amt = 0) || decide (amt ≤ 0) then st
  else
    match tenantL (trimChars (accountNumber.getD "")) with
    | none => st
    | some tenant =>
      match tenant.houseId with
      | none => st
      | some hid =>
        match
          (if falsyS transactionId then none
           else findByTxn st (transactionId.getD "")) with
        | some _ => st
        | none =>
          let monthlyDup := findMonthlyPaid st tenant.tid hid m y
          if (match monthlyDup with
              | some e => decide (e.amount = amt)
              | none => false) then st
          else
            match houseById hid with
            | none => st
            | some house =>
              st ++ [mkEquityRec st house tenant.tid amt transactionId
                referenceNumber m y]

/-- `router.post('/webhook')` of the Equity bank router (houses.js lines
320-340): acknowledge the caller with an unconditional 200 success that
references no receipt, then run the asynchronous processor over the
store. -/
def equityWebhook (st : Store) (tenantL : String → Option TenantRec)
    (houseById : Nat → Option HouseRec) (accountNumber : Option String)
    (amt : ℚ) (transactionId referenceNumber : Option String)
    (m : Nat) (y : Int) : ChanResp × Store :=
  (⟨200, none, none, none⟩,
    equityProcess st tenantL houseById accountNumber amt transactionId
      referenceNumber m y)

/-- Replace the first record carrying the given transaction id (the
document `findOne` returned, mutated and saved). -/
def updateFirstTxn (st : Store) (tid : String)
    (f : PaymentRec → PaymentRec) : Store :=
  match st with
  | [] => []
  | q :: rest =>
    if q.transactionId = some tid then f q :: rest
    else q :: updateFirstTxn rest tid f

/-- The success-branch update of the STK callback (part_007 lines
145-156): status `paid`, the provider receipt id (when present and
non-empty) overwrites both the reference number and the transaction id,
the latter falling back to the checkout request id. -/
def stkSuccessUpdate (checkoutId : String) (receiptId : Option String)
    (p : PaymentRec) : PaymentRec :=
  { p with
    status := .paid
    referenceNumber := some (if falsyS receiptId then "" else receiptId.getD "")
    transactionId :=
      some (if falsyS receiptId then checkoutId else receiptId.getD "") }

/-- The M-Pesa STK callback handler (part_007 lines 109-184): look up the
payment by `transactionId = CheckoutRequestID`; 404 when none matches;
on `ResultCode === 0` with metadata apply the success update and answer
`\x7bResultCode: 0\x7d`; otherwise revert the record to `pending` and echo the
result code. -/
def stkCallback (st : Store) (checkoutId : String) (resultCode : Int)
    (receiptId : Option String) (hasMeta : Bool) : ChanResp × Store :=
  match findByTxn st checkoutId with
  | none => (⟨404, none, none, none⟩, st)
  | some _ =>
    if decide (resultCode = 0) && hasMeta then
      (⟨200, none, none, some 0⟩,
        updateFirstTxn st checkoutId (stkSuccessUpdate checkoutId receiptId))
    else
      (⟨200, none, none, some resultCode⟩,
        updateFirstTxn st checkoutId (fun p => { p with status := .pending }))

/-- Sample house lookup: house number "101" resolves to house 1 with rent
1200 and tenant 7. -/
def houseL1 : String → Option HouseRec :=
  fun s => if s = "101" then some ⟨1, 1200, some 7⟩ else none

/-- Sample paybill request: house "101", amount 1200, transaction TXN1. -/
def pbReq1 : PaybillReq := ⟨some "101", some 1200, some "TXN1", none⟩

/-- Sample generic-webhook request with the same transaction id. -/
def rcReq1 : ReceiveReq := ⟨some "101", some 1200, some "TXN1", none⟩

/-- The store after the first successful paybill submission of `pbReq1`. -/
def st1 : Store := (paybill [] houseL1 true pbReq1 3 2024).2

/-- The record that first submission persisted. -/
def pbRec1 : PaymentRec := mkPaybillRec [] ⟨1, 1200, some 7⟩ 7 pbReq1 3 2024

/-- Sample bank-account lookup: account "ACC9" is active tenant 7 with
house 1. -/
def tenantL1 : String → Option TenantRec :=
  fun s => if s = "ACC9" then some ⟨7, some 1⟩ else none

/-- Sample house-by-id lookup: house 1 rents at 1200 to tenant 7. -/
def houseById1 : Nat → Option HouseRec :=
  fun h => if h = 1 then some ⟨1, 1200, some 7⟩ else none

/-- C3 counterexample: resubmitting the same external transaction id on
the paybill channel yields exactly one persisted record, but the second
response is an HTTP 400 error — not the successful no-op response the
claim requires of every channel. -/
theorem C3_counterexample :
    (paybill [] houseL1 true pbReq1 3 2024).1.statusCode = 201 ∧
    (paybill st1 houseL1 true pbReq1 3 2024).1.statusCode = 400 ∧
    ¬ (paybill st1 houseL1 true pbReq1 3 2024).1.statusCode < 400 ∧
    (paybill st1 houseL1 true pbReq1 3 2024).2 = st1 := by
  refine ⟨rfl, rfl, by decide, rfl⟩

/-- C3 (amended): a replayed external transaction id creates no second
record on any of the four ingestion channels, but the responses differ by
channel: the paybill channel answers 400 carrying the existing record's
receipt number, the generic webhook channel answers 400 carrying no
receipt, the mobile-money confirmation channel acknowledges
`ResultCode 0` unconditionally and silently drops the duplicate, and the
bank-webhook channel acknowledges 200 success unconditionally — its ack
referencing no receipt — and silently drops the duplicate. -/
theorem C3_txn_dedup (st : Store) (houseL : String → Option HouseRec)
    (tenantL : String → Option TenantRec) (houseById : Nat → Option HouseRec)
    (pOk : Bool) (reqP : PaybillReq) (reqR : ReceiveReq)
    (billRef : Option String) (transAmount : Option ℚ)
    (transId : Option String) (accountNumber : Option String) (amt : ℚ)
    (txn refn : Option String) (m : Nat) (y : Int) (e : PaymentRec)
    (house : HouseRec) (tid : Nat) (ten : TenantRec) (hid : Nat) :
    (pOk = true → falsyS reqP.accountNumber = false →
     falsyQ reqP.amount = false →
     houseL (trimChars (reqP.accountNumber.getD "")) = some house →
     house.tenantId = some tid →
     falsyS reqP.transactionId = false →
     findByTxn st (reqP.transactionId.getD "") = some e →
       (paybill st houseL pOk reqP m y).1.statusCode = 400 ∧
       (paybill st houseL pOk reqP m y).1.receiptNumber = e.receiptNumber ∧
       (paybill st houseL pOk reqP m y).2 = st) ∧
    (falsyS reqR.houseNumber = false → falsyQ reqR.amount = false →
     houseL (trimChars (reqR.houseNumber.getD "")) = some house →
     house.tenantId = some tid →
     falsyS reqR.transactionId = false →
     findByTxn st (reqR.transactionId.getD "") = some e →
       (receivePayment st houseL reqR m y).1.statusCode = 400 ∧
       (receivePayment st houseL reqR m y).1.receiptNumber = none ∧
       (receivePayment st houseL reqR m y).2 = st) ∧
    ((mpesaConfirm st houseL billRef transAmount transId m y).1 = 0) ∧
    (falsyS billRef = false → transAmount.isNone = false →
     falsyS transId = false →
     houseL (trimChars (billRef.getD "")) = some house →
     house.tenantId = some tid →
     findByTxn st (transId.getD "") = some e →
       (mpesaConfirm st houseL billRef transAmount transId m y).2 = st) ∧
    ((equityWebhook st tenantL houseById accountNumber amt txn refn m y).1 =
      ⟨200, none, none, none⟩) ∧
    ((falsyS accountNumber || decide (amt = 0) || decide (amt ≤ 0)) = false →
     tenantL (trimChars (accountNumber.getD "")) = some ten →
     ten.houseId = some hid →
     falsyS txn = false →
     findByTxn st (txn.getD "") = some e →
       (equityWebhook st tenantL houseById accountNumber amt txn refn m y).2 =
         st) := by
  refine ⟨?_, ?_, ?_, ?_, ?_, ?_⟩
  · intro hok ha ham hh ht htx hdup
    simp [paybill, hok, ha, ham, hh, ht, htx, hdup]
  · intro ha ham hh ht htx hdup
    simp [receivePayment, ha, ham, hh, ht, htx, hdup]
  · simp [mpesaConfirm]
  · intro hb hta htx hh ht hdup
    simp [mpesaConfirm, hb, hta, htx, hh, ht, hdup]
  · rfl
  · intro hval htl hth htx hdup
    simp [equityWebhook, equityProcess, hval, htl, hth, htx, hdup]

/-- Witness for C3 (amended) at the sample data: the duplicate submission
of TXN1 is answered 400 with receipt RCP-2024-000001 on the paybill
channel, 400 without a receipt on the generic webhook channel,
acknowledged `ResultCode 0` with no store change on the mobile-money
confirmation channel, and acknowledged 200 — with no receipt in the
ack — with no store change on the bank-webhook channel. -/
theorem C3_witness :
    ((paybill st1 houseL1 true pbReq1 3 2024).1.statusCode = 400 ∧
     (paybill st1 houseL1 true pbReq1 3 2024).1.receiptNumber =
       pbRec1.receiptNumber ∧
     (paybill st1 houseL1 true pbReq1 3 2024).2 = st1) ∧
    ((receivePayment st1 houseL1 rcReq1 3 2024).1.statusCode = 400 ∧
     (receivePayment st1 houseL1 rcReq1 3 2024).1.receiptNumber = none ∧
     (receivePayment st1 houseL1 rcReq1 3 2024).2 = st1) ∧
    ((mpesaConfirm st1 houseL1 (some "101") (some 1200) (some "TXN1")
        3 2024).1 = 0) ∧
    ((mpesaConfirm st1 houseL1 (some "101") (some 1200) (some "TXN1")
        3 2024).2 = st1) ∧
    ((equityWebhook st1 tenantL1 houseById1 (some "ACC9") 1000
        (some "TXN1") none 3 2024).1 = ⟨200, none, none, none⟩) ∧
    ((equityWebhook st1 tenantL1 houseById1 (some "ACC9") 1000
        (some "TXN1") none 3 2024).2 = st1) := by
  obtain ⟨h1, h2, h3, h4, h5, h6⟩ := C3_txn_dedup st1 houseL1 tenantL1
    houseById1 true pbReq1 rcReq1 (some "101") (some 1200) (some "TXN1")
    (some "ACC9") 1000 (some "TXN1") none 3 2024 pbRec1 ⟨1, 1200, some 7⟩ 7
    ⟨7, some 1⟩ 1
  exact ⟨h1 rfl (by decide) (by decide) (by decide) rfl (by decide) (by decide),
    h2 (by decide) (by decide) (by decide) rfl (by decide) (by decide),
    h3,
    h4 (by decide) (by decide) (by decide) (by decide) rfl (by decide),
    h5,
    h6 (by decide) (by decide) rfl (by decide) (by decide)⟩

/-- A `paid` record for (tenant 7, house 1, 3/2024) as created by a
paybill payment of the full rent with no transaction id. -/
def paidRec1 : PaymentRec :=
  mkPaybillRec [] ⟨1, 1200, some 7⟩ 7 ⟨some "101", some 1200, none, none⟩ 3 2024

/-- C6 counterexample: with a `paid` record (receipt RCP-2024-000001)
already present for the current period, the generic webhook channel does
reject the new notification, but its 400 response carries no receipt
number — only the existing record's id — contradicting the claim that
this channel surfaces the existing receipt. -/
theorem C6_counterexample :
    paidRec1.status = .paid ∧
    paidRec1.receiptNumber = some "RCP-2024-000001" ∧
    (receivePayment [paidRec1] houseL1 ⟨some "101", some 1000, some "TXN9", none⟩
      3 2024).1.statusCode = 400 ∧
    (receivePayment [paidRec1] houseL1 ⟨some "101", some 1000, some "TXN9", none⟩
      3 2024).1.receiptNumber = none ∧
    (receivePayment [paidRec1] houseL1 ⟨some "101", some 1000, some "TXN9", none⟩
      3 2024).1.existingId = some 0 := by
  refine ⟨rfl, by decide, rfl, rfl, rfl⟩

/-- C6 (amended): on a period-level `paid` duplicate, the paybill channel
rejects with 400 surfacing the existing record's receipt number and id;
the generic webhook channel rejects with 400 surfacing only the existing
record's id (no receipt number); and the bank-webhook processor creates
an additional record exactly when the newly reported amount differs from
the existing record's amount, dropping the notification otherwise. -/
theorem C6_period_dup (st : Store) (houseL : String → Option HouseRec)
    (tenantL : String → Option TenantRec) (houseById : Nat → Option HouseRec)
    (pOk : Bool) (reqP : PaybillReq) (reqR : ReceiveReq)
    (accountNumber : Option String) (amt : ℚ) (txn refn : Option String)
    (m : Nat) (y : Int) (e : PaymentRec) (house : HouseRec) (tid : Nat)
    (ten : TenantRec) (hid : Nat) :
    (pOk = true → falsyS reqP.accountNumber = false →
     falsyQ reqP.amount = false →
     houseL (trimChars (reqP.accountNumber.getD "")) = some house →
     house.tenantId = some tid →
     (if falsyS reqP.transactionId then none
      else findByTxn st (reqP.transactionId.getD "")) = none →
     findMonthlyPaid st tid house.hid m y = some e →
       (paybill st houseL pOk reqP m y).1 =
         ⟨400, e.receiptNumber, some e.pid, none⟩ ∧
       (paybill st houseL pOk reqP m y).2 = st) ∧
    (falsyS reqR.houseNumber = false → falsyQ reqR.amount = false →
     houseL (trimChars (reqR.houseNumber.getD "")) = some house →
     house.tenantId = some tid →
     (if falsyS reqR.transactionId then none
      else findByTxn st (reqR.transactionId.getD "")) = none →
     findMonthlyPaid st tid house.hid m y = some e →
       (receivePayment st houseL reqR m y).1 = ⟨400, none, some e.pid, none⟩ ∧
       (receivePayment st houseL reqR m y).2 = st) ∧
    ((falsyS accountNumber || decide (amt = 0) || decide (amt ≤ 0)) = false →
     tenantL (trimChars (accountNumber.getD "")) = some ten →
     ten.houseId = some hid →
     (if falsyS txn then none else findByTxn st (txn.getD "")) = none →
     findMonthlyPaid st ten.tid hid m y = some e →
     houseById hid = some house →
       (e.amount ≠ amt →
         equityProcess st tenantL houseById accountNumber amt txn refn m y =
           st ++ [mkEquityRec st house ten.tid amt txn refn m y]) ∧
       (e.amount = amt →
         equityProcess st tenantL houseById accountNumber amt txn refn m y =
           st)) := by
  refine ⟨?_, ?_, ?_⟩
  · intro hok ha ham hh ht htx hdup
    simp [paybill, hok, ha, ham, hh, ht, htx, hdup]
  · intro ha ham hh ht htx hdup
    simp [receivePayment, ha, ham, hh, ht, htx, hdup]
  · intro hval htl hth htx hdup hhb
    constructor
    · intro hne
      simp [equityProcess, hval, htl, hth, htx, hdup, hhb, hne]
    · intro heq
      simp [equityProcess, hval, htl, hth, htx, hdup, hhb, heq]

/-- Witness for C6 (amended): against the store holding `paidRec1`, a new
paybill notification is rejected with the existing receipt and id, a new
generic webhook notification is rejected with the id only, and the bank
webhook creates an additional record for a differing amount (1000) while
dropping an equal one (1200). -/
theorem C6_witness :
    ((paybill [paidRec1] houseL1 true ⟨some "101", some 1000, some "TXNA", none⟩
        3 2024).1 = ⟨400, paidRec1.receiptNumber, some paidRec1.pid, none⟩ ∧
     (paybill [paidRec1] houseL1 true ⟨some "101", some 1000, some "TXNA", none⟩
        3 2024).2 = [paidRec1]) ∧
    ((receivePayment [paidRec1] houseL1 ⟨some "101", some 1000, some "TXNB", none⟩
        3 2024).1 = ⟨400, none, some paidRec1.pid, none⟩ ∧
     (receivePayment [paidRec1] houseL1 ⟨some "101", some 1000, some "TXNB", none⟩
        3 2024).2 = [paidRec1]) ∧
    (equityProcess [paidRec1] tenantL1 houseById1 (some "ACC9") 1000
        (some "TXC") none 3 2024 =
      [paidRec1] ++ [mkEquityRec [paidRec1] ⟨1, 1200, some 7⟩ 7 1000
        (some "TXC") none 3 2024]) ∧
    (equityProcess [paidRec1] tenantL1 houseById1 (some "ACC9") 1200
        (some "TXD") none 3 2024 = [paidRec1]) := by
  obtain ⟨h1, h2, h3⟩ := C6_period_dup [paidRec1] houseL1 tenantL1 houseById1
    true ⟨some "101", some 1000, some "TXNA", none⟩
    ⟨some "101", some 1000, some "TXNB", none⟩ (some "ACC9") 1000
    (some "TXC") none 3 2024 paidRec1 ⟨1, 1200, some 7⟩ 7 ⟨7, some 1⟩ 1
  obtain ⟨_, _, h3'⟩ := C6_period_dup [paidRec1] houseL1 tenantL1 houseById1
    true ⟨some "101", some 1000, some "TXNA", none⟩
    ⟨some "101", some 1000, some "TXNB", none⟩ (some "ACC9") 1200
    (some "TXD") none 3 2024 paidRec1 ⟨1, 1200, some 7⟩ 7 ⟨7, some 1⟩ 1
  refine ⟨h1 rfl (by decide) (by decide) (by decide) rfl (by decide) (by decide),
    h2 (by decide) (by decide) (by decide) rfl (by decide) (by decide),
    (h3 (by decide) (by decide) rfl (by decide) (by decide) (by decide)).1
      (by decide),
    (h3' (by decide) (by decide) rfl (by decide) (by decide) (by decide)).2
      (by decide)⟩

/-- C7 counterexample: a paybill notification with a negative amount
(-50) passes the required-field check (only missing or zero amounts are
falsy), is not rejected by any InvalidAmount check — none exists — and is
persisted as a record with a negative paid amount. -/
theorem C7_counterexample :
    (paybill [] houseL1 true ⟨some "101", some (-50), some "TXE", none⟩
      3 2024).1.statusCode = 201 ∧
    (paybill [] houseL1 true ⟨some "101", some (-50), some "TXE", none⟩
      3 2024).2 =
      [mkPaybillRec [] ⟨1, 1200, some 7⟩ 7
        ⟨some "101", some (-50), some "TXE", none⟩ 3 2024] ∧
    (mkPaybillRec [] ⟨1, 1200, some 7⟩ 7
      ⟨some "101", some (-50), some "TXE", none⟩ 3 2024).amount = -50 ∧
    (mkPaybillRec [] ⟨1, 1200, some 7⟩ 7
      ⟨some "101", some (-50), some "TXE", none⟩ 3 2024).amount < 0 := by
  refine ⟨rfl, rfl, rfl, by norm_num [mkPaybillRec]⟩

/-- C7 (amended): a missing account reference or missing/zero amount is
rejected with a 400 error and no record is created on the paybill and
generic webhook channels, and the bank-webhook processor drops
non-positive amounts; but negative amounts are not rejected by the
paybill channel — no InvalidAmount check exists — and a record with a
negative paid amount is persisted. -/
theorem C7_validation (st : Store) (houseL : String → Option HouseRec)
    (tenantL : String → Option TenantRec) (houseById : Nat → Option HouseRec)
    (reqP : PaybillReq) (reqR : ReceiveReq) (accountNumber : Option String)
    (amt a : ℚ) (txn refn : Option String) (m : Nat) (y : Int)
    (house : HouseRec) (tid : Nat) :
    ((falsyS reqP.accountNumber || falsyQ reqP.amount) = true →
      (paybill st houseL true reqP m y).1.statusCode = 400 ∧
      (paybill st houseL true reqP m y).2 = st) ∧
    ((falsyS reqR.houseNumber || falsyQ reqR.amount) = true →
      (receivePayment st houseL reqR m y).1.statusCode = 400 ∧
      (receivePayment st houseL reqR m y).2 = st) ∧
    (amt ≤ 0 →
      equityProcess st tenantL houseById accountNumber amt txn refn m y = st) ∧
    (falsyS reqP.accountNumber = false → reqP.amount = some a → a < 0 →
     houseL (trimChars (reqP.accountNumber.getD "")) = some house →
     house.tenantId = some tid →
     (if falsyS reqP.transactionId then none
      else findByTxn st (reqP.transactionId.getD "")) = none →
     findMonthlyPaid st tid house.hid m y = none →
       (paybill st houseL true reqP m y).1.statusCode = 201 ∧
       (paybill st houseL true reqP m y).2 =
         st ++ [mkPaybillRec st house tid reqP m y] ∧
       (mkPaybillRec st house tid reqP m y).amount = a) := by
  refine ⟨?_, ?_, ?_, ?_⟩
  · intro hbad
    constructor <;> simp [paybill, hbad]
  · intro hbad
    constructor <;> simp [receivePayment, hbad]
  · intro hle
    simp [equityProcess, hle]
  · intro ha hamt haneg hh ht htx hdup
    have hfq : falsyQ reqP.amount = false := by
      rw [hamt]
      simp [falsyQ, haneg.ne]
    refine ⟨?_, ?_, ?_⟩
    · simp [paybill, ha, hfq, hh, ht, htx, hdup]
    · simp [paybill, ha, hfq, hh, ht, htx, hdup]
    · simp [mkPaybillRec, hamt]

/-- Witness for C7 (amended): an empty paybill/webhook request is
rejected 400 leaving the store empty; the bank webhook drops amount -5;
and the concrete -50 paybill notification is persisted with amount
-50. -/
theorem C7_witness :
    ((paybill [] houseL1 true ⟨none, none, none, none⟩ 3 2024).1.statusCode =
        400 ∧
     (paybill [] houseL1 true ⟨none, none, none, none⟩ 3 2024).2 = []) ∧
    ((receivePayment [] houseL1 ⟨none, none, none, none⟩ 3 2024).1.statusCode =
        400 ∧
     (receivePayment [] houseL1 ⟨none, none, none, none⟩ 3 2024).2 = []) ∧
    (equityProcess [] tenantL1 houseById1 (some "ACC9") (-5) none none
        3 2024 = []) ∧
    ((paybill [] houseL1 true ⟨some "101", some (-50), some "TXE", none⟩
        3 2024).1.statusCode = 201 ∧
     (paybill [] houseL1 true ⟨some "101", some (-50), some "TXE", none⟩
        3 2024).2 =
       [] ++ [mkPaybillRec [] ⟨1, 1200, some 7⟩ 7
         ⟨some "101", some (-50), some "TXE", none⟩ 3 2024] ∧
     (mkPaybillRec [] ⟨1, 1200, some 7⟩ 7
       ⟨some "101", some (-50), some "TXE", none⟩ 3 2024).amount = -50) := by
  obtain ⟨hA, hB, hC, _⟩ := C7_validation [] houseL1 tenantL1 houseById1
    ⟨none, none, none, none⟩ ⟨none, none, none, none⟩ (some "ACC9")
    (-5) (-5) none none 3 2024 ⟨1, 1200, some 7⟩ 7
  obtain ⟨_, _, _, hD⟩ := C7_validation [] houseL1 tenantL1 houseById1
    ⟨some "101", some (-50), some "TXE", none⟩ ⟨none, none, none, none⟩
    (some "ACC9") (-5) (-50) none none 3 2024 ⟨1, 1200, some 7⟩ 7
  exact ⟨hA (by decide), hB (by decide), hC (by norm_num),
    hD (by decide) rfl (by norm_num) (by decide) rfl (by decide) (by decide)⟩

/-- C10: the paybill, mobile-money confirmation, and generic webhook
constructors persist no expectedAmount, paidAmount, deficit or
carriedForward value and decide status purely by comparing the reported
amount with the unit's rent; consequently the preceding-period deficit
lookup, which reads the deficit field, yields a carried-forward amount of
0 whenever the latest preceding record is such a record. -/
theorem C10_channel_ledger_fields (st : Store) (house : HouseRec) (tid : Nat)
    (reqP : PaybillReq) (reqR : ReceiveReq) (amt : ℚ) (transId : String)
    (m : Nat) (y : Int) :
    ((mkPaybillRec st house tid reqP m y).expectedAmount = none ∧
     (mkPaybillRec st house tid reqP m y).paidAmount = none ∧
     (mkPaybillRec st house tid reqP m y).deficit = none ∧
     (mkPaybillRec st house tid reqP m y).carriedForward = none ∧
     (mkPaybillRec st house tid reqP m y).status =
       (if reqP.amount.getD 0 < house.rent then .underpaid else .paid)) ∧
    ((mkReceiveRec st house tid reqR m y).expectedAmount = none ∧
     (mkReceiveRec st house tid reqR m y).paidAmount = none ∧
     (mkReceiveRec st house tid reqR m y).deficit = none ∧
     (mkReceiveRec st house tid reqR m y).carriedForward = none ∧
     (mkReceiveRec st house tid reqR m y).status =
       (if reqR.amount.getD 0 < house.rent then .underpaid else .paid)) ∧
    ((mkMpesaRec st house tid amt transId m y).expectedAmount = none ∧
     (mkMpesaRec st house tid amt transId m y).paidAmount = none ∧
     (mkMpesaRec st house tid amt transId m y).deficit = none ∧
     (mkMpesaRec st house tid amt transId m y).carriedForward = none ∧
     (mkMpesaRec st house tid amt transId m y).status =
       (if amt < house.rent then .underpaid else .paid)) ∧
    (∀ (st' : Store) (t h m' : Nat) (y' : Int) (p0 : PaymentRec),
      latestMatch st' t h (prevPeriod m' y').1 (prevPeriod m' y').2 = some p0 →
      p0.deficit = none → carryFor st' t h m' y' = 0) := by
  refine ⟨⟨rfl, rfl, rfl, rfl, rfl⟩, ⟨rfl, rfl, rfl, rfl, rfl⟩,
    ⟨rfl, rfl, rfl, rfl, rfl⟩, ?_⟩
  intro st' t h m' y' p0 hlm hdef
  unfold carryFor
  rw [hlm]
  simp [hdef]

/-- Witness for C10 at the sample data: the record `paidRec1` (a paybill
record for 3/2024) carries no deficit, so generating for 4/2024 carries
forward 0 despite any shortfall hidden in its amount. -/
theorem C10_witness :
    ((mkPaybillRec [] ⟨1, 1200, some 7⟩ 7 pbReq1 3 2024).expectedAmount =
        none ∧
     (mkPaybillRec [] ⟨1, 1200, some 7⟩ 7 pbReq1 3 2024).paidAmount = none ∧
     (mkPaybillRec [] ⟨1, 1200, some 7⟩ 7 pbReq1 3 2024).deficit = none ∧
     (mkPaybillRec [] ⟨1, 1200, some 7⟩ 7 pbReq1 3 2024).carriedForward =
        none ∧
     (mkPaybillRec [] ⟨1, 1200, some 7⟩ 7 pbReq1 3 2024).status =
       (if pbReq1.amount.getD 0 < (1200 : ℚ) then PayStatus.underpaid
        else .paid)) ∧
    ((mkReceiveRec [] ⟨1, 1200, some 7⟩ 7 rcReq1 3 2024).expectedAmount =
        none ∧
     (mkReceiveRec [] ⟨1, 1200, some 7⟩ 7 rcReq1 3 2024).paidAmount = none ∧
     (mkReceiveRec [] ⟨1, 1200, some 7⟩ 7 rcReq1 3 2024).deficit = none ∧
     (mkReceiveRec [] ⟨1, 1200, some 7⟩ 7 rcReq1 3 2024).carriedForward =
        none ∧
     (mkReceiveRec [] ⟨1, 1200, some 7⟩ 7 rcReq1 3 2024).status =
       (if rcReq1.amount.getD 0 < (1200 : ℚ) then PayStatus.underpaid
        else .paid)) ∧
    ((mkMpesaRec [] ⟨1, 1200, some 7⟩ 7 800 "TXF" 3 2024).expectedAmount =
        none ∧
     (mkMpesaRec [] ⟨1, 1200, some 7⟩ 7 800 "TXF" 3 2024).paidAmount = none ∧
     (mkMpesaRec [] ⟨1, 1200, some 7⟩ 7 800 "TXF" 3 2024).deficit = none ∧
     (mkMpesaRec [] ⟨1, 1200, some 7⟩ 7 800 "TXF" 3 2024).carriedForward =
        none ∧
     (mkMpesaRec [] ⟨1, 1200, some 7⟩ 7 800 "TXF" 3 2024).status =
       (if (800 : ℚ) < 1200 then PayStatus.underpaid else .paid)) ∧
    carryFor [paidRec1] 7 1 4 2024 = 0 := by
  obtain ⟨hA, hB, hC, hD⟩ := C10_channel_ledger_fields [] ⟨1, 1200, some 7⟩ 7
    pbReq1 rcReq1 800 "TXF" 3 2024
  exact ⟨hA, hB, hC, hD [paidRec1] 7 1 4 2024 paidRec1 (by decide) rfl⟩

/-- Folding the generator step over a tenant list: every tenant is either
generated or skipped (the counts sum to the number of tenants), and the
store grows by exactly the number generated. -/
theorem genFold_counts (m : Nat) (y : Int) (grace : Int) (pct : ℚ)
    (today : Int) :
    ∀ (tenants : List GenTenant) (s : GenState),
      ((tenants.foldl (genStep m y grace pct today) s).generated +
        (tenants.foldl (genStep m y grace pct today) s).skipped =
        s.generated + s.skipped + tenants.length) ∧
      ((tenants.foldl (genStep m y grace pct today) s).store.length +
        s.generated =
        s.store.length +
          (tenants.foldl (genStep m y grace pct today) s).generated) := by
  intro tenants
  induction tenants with
  | nil => intro s; simp
  | cons t ts ih =>
    intro s
    have h := ih (genStep m y grace pct today s t)
    rw [List.foldl_cons]
    by_cases hp : periodExists s.store t.tid t.houseId m y = true
    · have hgs : genStep m y grace pct today s t =
          { s with
            skipped := s.skipped + 1
            reasons := s.reasons ++
              ["Payment already exists for tenant " ++ toString t.tid] } := by
        simp [genStep, hp]
      rw [hgs] at h ⊢
      constructor
      · rw [h.1]
        simp [List.length_cons]
        omega
      · have h2 := h.2
        simp at h2 ⊢
        omega
    · have hp' : periodExists s.store t.tid t.houseId m y = false := by
        simpa using hp
      have hgs : genStep m y grace pct today s t =
          { store := s.store ++ [genNewRec s.store m y grace pct today t]
            generated := s.generated + 1
            skipped := s.skipped
            reasons := s.reasons } := by
        simp [genStep, hp']
      rw [hgs] at h ⊢
      constructor
      · rw [h.1]
        simp [List.length_cons]
        omega
      · have h2 := h.2
        simp at h2 ⊢
        omega

/-- C8: for an occupant whose (tenant, house, period) record already
exists, the generator step skips with a reason and changes nothing else;
otherwise it appends exactly one record with paidAmount 0, deficit =
expectedAmount = rent + carried-forward, status pending — or overdue with
lateFee = expectedAmount * lateFeePercentage / 100 when the due date plus
grace period has elapsed — and the whole run's generated and skipped
counts partition the occupants, the store growing by the generated
count. -/
theorem C8_generator (tenants : List GenTenant) (st : Store) (m : Nat)
    (y : Int) (grace : Int) (pct : ℚ) (today : Int) (s : GenState)
    (t : GenTenant) :
    (periodExists s.store t.tid t.houseId m y = true →
      genStep m y grace pct today s t =
        { s with
          skipped := s.skipped + 1
          reasons := s.reasons ++
            ["Payment already exists for tenant " ++ toString t.tid] }) ∧
    (periodExists s.store t.tid t.houseId m y = false →
      genStep m y grace pct today s t =
        { store := s.store ++ [genNewRec s.store m y grace pct today t]
          generated := s.generated + 1
          skipped := s.skipped
          reasons := s.reasons }) ∧
    ((genNewRec s.store m y grace pct today t).paidAmount = some 0) ∧
    ((genNewRec s.store m y grace pct today t).deficit =
      some (t.rent + carryFor s.store t.tid t.houseId m y)) ∧
    ((genNewRec s.store m y grace pct today t).expectedAmount =
      some (t.rent + carryFor s.store t.tid t.houseId m y)) ∧
    (firstOfMonth m y + grace < today →
      (genNewRec s.store m y grace pct today t).status = .overdue ∧
      (genNewRec s.store m y grace pct today t).lateFee =
        (t.rent + carryFor s.store t.tid t.houseId m y) * pct / 100) ∧
    (¬ firstOfMonth m y + grace < today →
      (genNewRec s.store m y grace pct today t).status = .pending ∧
      (genNewRec s.store m y grace pct today t).lateFee = 0) ∧
    ((generateMonthly tenants st m y grace pct today).generated +
      (generateMonthly tenants st m y grace pct today).skipped =
      tenants.length) ∧
    ((generateMonthly tenants st m y grace pct today).store.length =
      st.length + (generateMonthly tenants st m y grace pct today).generated) := by
  have hc := genFold_counts m y grace pct today tenants
    { store := st, generated := 0, skipped := 0, reasons := [] }
  refine ⟨?_, ?_, rfl, rfl, rfl, ?_, ?_, ?_, ?_⟩
  · intro hp
    simp [genStep, hp]
  · intro hp
    simp [genStep, hp]
  · intro hl
    constructor <;> simp [genNewRec, hl]
  · intro hl
    constructor <;> simp [genNewRec, hl]
  · simpa [generateMonthly] using hc.1
  · have h2 := hc.2
    simp [generateMonthly] at h2 ⊢
    omega

/-- Witness for C8: on the store holding `marRec` (tenant 1, house 1,
3/2024) the step for tenant 1 skips with a reason; on the empty store it
generates one pending record before the grace deadline and one overdue
record with the 5 percent late fee after it; the one-tenant run counts
are 1 generated, 0 skipped. -/
theorem C8_witness :
    (genStep 3 2024 5 5 0 ⟨[marRec], 0, 0, []⟩ ⟨1, 1, 1200⟩ =
      { store := [marRec], generated := 0, skipped := 0 + 1,
        reasons := [] ++ ["Payment already exists for tenant " ++
          toString (1 : Nat)] }) ∧
    (genStep 3 2024 5 5 0 ⟨[], 0, 0, []⟩ ⟨1, 1, 1200⟩ =
      { store := [] ++ [genNewRec [] 3 2024 5 5 0 ⟨1, 1, 1200⟩]
        generated := 0 + 1
        skipped := 0
        reasons := [] }) ∧
    ((genNewRec [] 3 2024 5 5 0 ⟨1, 1, 1200⟩).paidAmount = some 0) ∧
    ((genNewRec [] 3 2024 5 5 0 ⟨1, 1, 1200⟩).deficit =
      some (1200 + carryFor [] 1 1 3 2024)) ∧
    ((genNewRec [] 3 2024 5 5 0 ⟨1, 1, 1200⟩).status = .pending) ∧
    ((genNewRec [] 3 2024 5 5 0 ⟨1, 1, 1200⟩).lateFee = 0) ∧
    ((genNewRec [] 3 2024 5 5 (firstOfMonth 3 2024 + 100)
        ⟨1, 1, 1200⟩).status = .overdue) ∧
    ((genNewRec [] 3 2024 5 5 (firstOfMonth 3 2024 + 100)
        ⟨1, 1, 1200⟩).lateFee =
      (1200 + carryFor [] 1 1 3 2024) * 5 / 100) ∧
    ((generateMonthly [⟨1, 1, 1200⟩] [] 3 2024 5 5 0).generated +
      (generateMonthly [⟨1, 1, 1200⟩] [] 3 2024 5 5 0).skipped = 1) ∧
    ((generateMonthly [⟨1, 1, 1200⟩] [] 3 2024 5 5 0).store.length =
      0 + (generateMonthly [⟨1, 1, 1200⟩] [] 3 2024 5 5 0).generated) := by
  obtain ⟨hskip, _, _, _, _, _, _, _, _⟩ :=
    C8_generator [⟨1, 1, 1200⟩] [] 3 2024 5 5 0 ⟨[marRec], 0, 0, []⟩
      ⟨1, 1, 1200⟩
  obtain ⟨_, hgen, hpa, hdf, _, _, hpend, hcnt, hlen⟩ :=
    C8_generator [⟨1, 1, 1200⟩] [] 3 2024 5 5 0 ⟨[], 0, 0, []⟩ ⟨1, 1, 1200⟩
  obtain ⟨_, _, _, _, _, hover, _, _, _⟩ :=
    C8_generator [⟨1, 1, 1200⟩] [] 3 2024 5 5 (firstOfMonth 3 2024 + 100)
      ⟨[], 0, 0, []⟩ ⟨1, 1, 1200⟩
  refine ⟨hskip (by decide), hgen (by decide), hpa, hdf, ?_, ?_, ?_, ?_,
    hcnt, ?_⟩
  · exact (hpend (by decide)).1
  · exact (hpend (by decide)).2
  · exact (hover (by norm_num [firstOfMonth])).1
  · exact (hover (by norm_num [firstOfMonth])).2
  · simpa using hlen

/-- A pending STK push record awaiting its callback, correlation id CK1. -/
def stkRec1 : PaymentRec :=
  { marRec with transactionId := some "CK1", paymentSource := "mpesa_stk" }

/-- No element carries the transaction id, so the lookup fails. -/
theorem findByTxn_none_of_no_match (st : Store) (cid : String)
    (h : ∀ q ∈ st, q.transactionId ≠ some cid) :
    findByTxn st cid = none := by
  unfold findByTxn
  apply List.find?_eq_none.mpr
  intro q hq
  simpa using h q hq

/-- After replacing the unique record carrying the correlation id with one
whose transaction id differs, the correlation-id lookup fails. -/
theorem findByTxn_update_none (st : Store) (cid : String)
    (f : PaymentRec → PaymentRec)
    (hcount : st.countP (fun q => decide (q.transactionId = some cid)) ≤ 1)
    (hf : ∀ q, (f q).transactionId ≠ some cid) :
    findByTxn (updateFirstTxn st cid f) cid = none := by
  induction st with
  | nil => rfl
  | cons q rest ih =>
    by_cases hq : q.transactionId = some cid
    · have hu : updateFirstTxn (q :: rest) cid f = f q :: rest := by
        simp [updateFirstTxn, hq]
      rw [hu]
      have hrest : rest.countP
          (fun q => decide (q.transactionId = some cid)) = 0 := by
        rw [List.countP_cons_of_pos] at hcount
        · omega
        · simpa using hq
      have hnone : findByTxn rest cid = none := by
        apply findByTxn_none_of_no_match
        intro p hp
        have := List.countP_eq_zero.mp hrest p hp
        simpa using this
      unfold findByTxn at hnone ⊢
      rw [List.find?_cons_of_neg, hnone]
      simp [hf q]
    · have hu : updateFirstTxn (q :: rest) cid f =
          q :: updateFirstTxn rest cid f := by
        simp [updateFirstTxn, hq]
      rw [hu]
      have hrest : rest.countP
          (fun q => decide (q.transactionId = some cid)) ≤ 1 := by
        rw [List.countP_cons_of_neg] at hcount
        · exact hcount
        · simpa using hq
      have := ih hrest
      unfold findByTxn at this ⊢
      rw [List.find?_cons_of_neg, this]
      simp [hq]

/-- C4 counterexample: a successful callback for CK1 is acknowledged 200
and overwrites the record's transaction id with the provider receipt
MPE9; the replayed callback with the same correlation id CK1 then matches
no record and is answered with a 404 error — not an acknowledgment —
though the store is left unchanged. -/
theorem C4_counterexample :
    ((stkCallback [stkRec1] "CK1" 0 (some "MPE9") true).1.statusCode = 200) ∧
    ((stkCallback [stkRec1] "CK1" 0 (some "MPE9") true).2 =
      [stkSuccessUpdate "CK1" (some "MPE9") stkRec1]) ∧
    ((stkSuccessUpdate "CK1" (some "MPE9") stkRec1).status = .paid) ∧
    ((stkSuccessUpdate "CK1" (some "MPE9") stkRec1).transactionId =
      some "MPE9") ∧
    ((stkCallback [stkSuccessUpdate "CK1" (some "MPE9") stkRec1] "CK1" 0
        (some "MPE9") true).1.statusCode = 404) ∧
    ((404 : Nat) ≠ 200) ∧
    ((stkCallback [stkSuccessUpdate "CK1" (some "MPE9") stkRec1] "CK1" 0
        (some "MPE9") true).2 =
      [stkSuccessUpdate "CK1" (some "MPE9") stkRec1]) := by
  refine ⟨rfl, rfl, rfl, rfl, rfl, by decide, rfl⟩

/-- C4 (amended): a callback whose correlation id matches no record is
answered with a 404 error (not an acknowledgment) and changes nothing;
and after a successful callback has stored a provider receipt id distinct
from the correlation id as the record's transaction identifier, a
replayed callback carrying the same correlation id no longer matches any
record, so it too receives the 404 error while leaving every record
unchanged. -/
theorem C4_callback_replay (st : Store) (cid : String) (rc rc2 : Int)
    (receiptId2 : Option String) (hasMeta hasMeta2 : Bool) (r : String)
    (hcount : st.countP (fun q => decide (q.transactionId = some cid)) ≤ 1)
    (hfound : (findByTxn st cid).isSome = true)
    (hr : r ≠ "") (hrc : r ≠ cid) :
    (∀ st' : Store, findByTxn st' cid = none →
      (stkCallback st' cid rc receiptId2 hasMeta).1.statusCode = 404 ∧
      (stkCallback st' cid rc receiptId2 hasMeta).2 = st') ∧
    ((stkCallback (stkCallback st cid 0 (some r) true).2 cid rc2 receiptId2
        hasMeta2).1.statusCode = 404 ∧
     (stkCallback (stkCallback st cid 0 (some r) true).2 cid rc2 receiptId2
        hasMeta2).2 = (stkCallback st cid 0 (some r) true).2) := by
  have hst' : (stkCallback st cid 0 (some r) true).2 =
      updateFirstTxn st cid (stkSuccessUpdate cid (some r)) := by
    obtain ⟨p, hp⟩ := Option.isSome_iff_exists.mp hfound
    simp [stkCallback, hp]
  have hf : ∀ q, (stkSuccessUpdate cid (some r) q).transactionId ≠
      some cid := by
    intro q
    simp [stkSuccessUpdate, falsyS, hr, hrc]
  have hnone : findByTxn (stkCallback st cid 0 (some r) true).2 cid = none := by
    rw [hst']
    exact findByTxn_update_none st cid _ hcount hf
  have key : ∀ (st' : Store) (rcx : Int) (ridx : Option String) (hmx : Bool),
      findByTxn st' cid = none →
      stkCallback st' cid rcx ridx hmx = (⟨404, none, none, none⟩, st') := by
    intro st' rcx ridx hmx h
    unfold stkCallback
    rw [h]
  refine ⟨?_, ?_, ?_⟩
  · intro st' h
    rw [key st' rc receiptId2 hasMeta h]
    exact ⟨rfl, rfl⟩
  · rw [key _ rc2 receiptId2 hasMeta2 hnone]
  · rw [key _ rc2 receiptId2 hasMeta2 hnone]

/-- Witness for C4 (amended): on the empty store the callback for CK1 is
a 404 no-op; after the successful CK1 callback stored receipt MPE9, the
replayed CK1 callback is a 404 no-op on the updated store. -/
theorem C4_witness :
    ((stkCallback [] "CK1" 1 (some "MPE9") true).1.statusCode = 404 ∧
     (stkCallback [] "CK1" 1 (some "MPE9") true).2 = []) ∧
    ((stkCallback (stkCallback [stkRec1] "CK1" 0 (some "MPE9") true).2 "CK1"
        0 (some "MPE9") true).1.statusCode = 404 ∧
     (stkCallback (stkCallback [stkRec1] "CK1" 0 (some "MPE9") true).2 "CK1"
        0 (some "MPE9") true).2 =
      (stkCallback [stkRec1] "CK1" 0 (some "MPE9") true).2) := by
  obtain ⟨h1, h2⟩ := C4_callback_replay [stkRec1] "CK1" 1 0 (some "MPE9")
    true true "MPE9" (by decide) (by decide) (by decide) (by decide)
  exact ⟨h1 [] rfl, h2⟩

end Rent
